import Mathlib

/-!
Shallow embedding of the Stellar "exact" payment scheme of the x402
repository: the facilitator's `verify` and `settle` pipelines
(src/typescript/packages/x402/src/schemes/exact/stellar/facilitator),
the auth-entry auditor `gatherAuthEntrySignatureStatus` and the
simulation helpers (src/.../schemes/exact/stellar/shared.ts).

Binary XDR decoding is represented by its result: a payload carries
`Option Transaction`, where `none` models a base64 string the decoder
rejects.  Machine integers of the chain (i128 amounts, sequence numbers)
are modelled as `Int`; the i128 range is never exercised by the checks
embedded here (they only compare for equality).
-/

namespace X402

/-- The error-reason string literals of `types/verify.ts` used by the Stellar
scheme, without their `invalid_exact_stellar_payload_` /
`settle_exact_stellar_` prefixes. -/
inductive ErrorReason where
  | invalid_x402_version
  | invalid_scheme
  | invalid_network
  | malformed
  | wrong_operation
  | wrong_asset
  | wrong_function_name
  | wrong_function_args
  | wrong_recipient
  | wrong_amount
  | simulation_failed
  | unsafe_tx_or_op_source
  | missing_payer_signature
  | unexpected_pending_signatures
  | unexpected_verify_error
  | transaction_signing_failed
  | transaction_submission_failed
  | transaction_failed
  | unexpected_settle_error
  deriving DecidableEq, Repr

/-- Soroban `ScVal` values, restricted to the shapes the pipeline inspects:
addresses, i128 integers, the void value (an absent signature slot), and an
opaque constructor for every other variant. -/
inductive ScVal where
  | scvVoid
  | scvAddress (address : String)
  | scvI128 (value : Int)
  | scvOther (tag : String)
  deriving DecidableEq, Repr

/-- `signature.switch().name === "scvVoid"`. -/
def ScVal.isVoid : ScVal → Bool
  | .scvVoid => true
  | _ => false

/-- The result of `scValToNative`: a JS string, a JS bigint, or some other
native value.  TS compares these with `!==`, so values of different shapes
are never equal. -/
inductive NativeVal where
  | str (s : String)
  | int (i : Int)
  | other (tag : String)
  deriving DecidableEq, Repr

def scValToNative : ScVal → NativeVal
  | .scvAddress address => .str address
  | .scvI128 value => .int value
  | .scvVoid => .other "void"
  | .scvOther tag => .other tag

/-- `xdr.SorobanCredentials`: source-account credentials, or address
credentials carrying the authorizing address and its signature slot. -/
inductive SorobanCredentials where
  | sourceAccount
  | address (address : String) (signature : ScVal)
  deriving DecidableEq, Repr

structure AuthorizationEntry where
  credentials : SorobanCredentials
  deriving DecidableEq, Repr

/-- A host function: a contract invocation (`hostFunctionTypeInvokeContract`)
with contract address, function name and arguments, or any other kind. -/
inductive HostFunction where
  | invokeContract (contractAddress : String) (functionName : String) (args : List ScVal)
  | otherHostFunction (tag : String)
  deriving DecidableEq, Repr

/-- A transaction operation: `invokeHostFunction` with its host function,
optional auth-entry list and optional operation-level source, or any other
operation type. -/
inductive Operation where
  | invokeHostFunction (func : HostFunction) (auth : Option (List AuthorizationEntry))
      (source : Option String)
  | otherOperation (tag : String)
  deriving DecidableEq, Repr

/-- The decoded transaction, with exactly the fields the facilitator code
reads: the fields `TransactionBuilder` clones in `settle`, the operations,
and the Soroban resource data of the envelope (`none` when the envelope
carries none). -/
structure Transaction where
  source : String
  sequence : Int
  fee : Nat
  timeBounds : Option (Nat × Nat)
  ledgerBounds : Option (Nat × Nat)
  memo : String
  minAccountSequence : Option String
  minAccountSequenceAge : Option Nat
  minAccountSequenceLedgerGap : Option Nat
  extraSigners : List String
  operations : List Operation
  sorobanData : Option String
  deriving DecidableEq, Repr

/-- A successful simulation (`Api.SimulateTransactionSuccessResponse`): the
auth entries the simulation produced, the recomputed resource data and fee,
and, when present, the restore preamble that makes it a
`SimulateTransactionRestoreResponse`. -/
structure SimulateSuccess where
  auth : List AuthorizationEntry
  transactionData : String
  minResourceFee : Nat
  restorePreamble : Option String
  deriving DecidableEq, Repr

/-- `Api.SimulateTransactionResponse`: an error response (`error` field
present) or a success response. -/
inductive SimulateResponse where
  | success (s : SimulateSuccess)
  | simError (message : String)
  deriving DecidableEq, Repr

/-- `Api.isSimulationError`: the response carries an `error` field. -/
def SimulateResponse.isSimulationError : SimulateResponse → Bool
  | .simError _ => true
  | _ => false

/-- `Api.isSimulationRestore`: a success response with a restore preamble. -/
def SimulateResponse.isSimulationRestore : SimulateResponse → Bool
  | .success s => s.restorePreamble.isSome
  | _ => false

/-- `handleSimulationResult` of shared.ts: throws (modelled as `.error`) for
an undefined simulation, a RESTORE simulation, or an error simulation; used
by the client, not by the facilitator's `verify`. -/
def handleSimulationResult (simulation : Option SimulateResponse) : Except String Unit :=
  match simulation with
  | none => .error "Simulation result is undefined"
  | some sim =>
    if sim.isSimulationRestore then
      .error "RESTORE"
    else if sim.isSimulationError then
      .error "simulation failed"
    else
      .ok ()

/-- `assembleTransaction` of `@stellar/stellar-sdk/rpc`, as used by the
auditor: requires a single invokeHostFunction operation and a non-error
simulation; merges the simulation's resource fee and resource data into the
transaction, and fills the operation's auth entries from the simulation when
the operation carries none. -/
def assembleTransaction (transaction : Transaction) (sim : SimulateResponse) :
    Except String Transaction :=
  match transaction.operations with
  | [Operation.invokeHostFunction func auth source] =>
    match sim with
    | .simError message => .error ("simulation incorrect: " ++ message)
    | .success s =>
      let existingAuth := auth.getD []
      .ok { transaction with
              fee := transaction.fee + s.minResourceFee,
              sorobanData := some s.transactionData,
              operations := [Operation.invokeHostFunction func
                (some (if existingAuth.length > 0 then existingAuth else s.auth)) source] }
  | _ => .error "unsupported transaction: must contain exactly one invokeHostFunction operation"

instance exceptDecEq {ε α : Type} [DecidableEq ε] [DecidableEq α] :
    DecidableEq (Except ε α) := fun x y =>
  match x, y with
  | .error a, .error b =>
    if h : a = b then .isTrue (by rw [h])
    else .isFalse (by intro hc; cases hc; exact h rfl)
  | .error _, .ok _ => .isFalse (by intro hc; cases hc)
  | .ok _, .error _ => .isFalse (by intro hc; cases hc)
  | .ok a, .ok b =>
    if h : a = b then .isTrue (by rw [h])
    else .isFalse (by intro hc; cases hc; exact h rfl)

/-- `ContractSigners` of shared.ts. -/
structure ContractSigners where
  alreadySigned : List String
  pendingSignature : List String
  deriving DecidableEq, Repr

/-- `GatherAuthEntrySignatureStatusInput` of shared.ts. -/
structure GatherAuthEntrySignatureStatusInput where
  transaction : Transaction
  simulationResponse : Option SimulateResponse
  simulate : Option Bool
  deriving DecidableEq, Repr

/-- `[...new Set(xs)]`: removes later duplicates, keeping first occurrences. -/
def setDedup (xs : List String) : List String :=
  xs.foldl (fun acc x => if x ∈ acc then acc else acc ++ [x]) []

/-- One step of the auth-entry loop of `gatherAuthEntrySignatureStatus`:
source-account credentials are skipped; address credentials are pushed to
the signed list when the signature slot is non-void, else to the pending
list. -/
def classifyAuthEntry (acc : List String × List String) (entry : AuthorizationEntry) :
    List String × List String :=
  match entry.credentials with
  | .sourceAccount => acc
  | .address address signature =>
    if signature.isVoid then (acc.1, acc.2 ++ [address])
    else (acc.1 ++ [address], acc.2)

/-- The assemble step of `gatherAuthEntrySignatureStatus` (shared.ts
lines 78–86): assemble with the simulation when requested and present. -/
def assembleForAudit (input : GatherAuthEntrySignatureStatusInput) :
    Except String Transaction :=
  let shouldAssemble := input.simulate.getD input.simulationResponse.isSome
  match input.simulationResponse with
  | some sim =>
    if shouldAssemble then assembleTransaction input.transaction sim
    else .ok input.transaction
  | none => .ok input.transaction

/-- The structure check and entry loop of `gatherAuthEntrySignatureStatus`
(shared.ts lines 88–133): requires exactly one invokeHostFunction
operation, classifies each auth entry, and set-deduplicates both lists. -/
def auditAssembledOperations (assembledTx : Transaction) :
    Except String ContractSigners :=
  match assembledTx.operations with
  | [Operation.invokeHostFunction _ auth _] =>
    let folded := (auth.getD []).foldl classifyAuthEntry ([], [])
    .ok { alreadySigned := setDedup folded.1, pendingSignature := setDedup folded.2 }
  | [_] => .error "Expected InvokeHostFunction operation"
  | _ => .error "Expected transaction with exactly one operation"

/-- `gatherAuthEntrySignatureStatus` of shared.ts.  Optionally assembles the
transaction with the simulation response, requires exactly one
invokeHostFunction operation (else it throws, modelled as `.error`),
classifies each auth entry, and set-deduplicates both lists. -/
def gatherAuthEntrySignatureStatus (input : GatherAuthEntrySignatureStatusInput) :
    Except String ContractSigners :=
  match assembleForAudit input with
  | .error e => .error e
  | .ok assembledTx => auditAssembledOperations assembledTx

/-- `PaymentRequirements` of types/verify.ts, restricted to the fields the
Stellar scheme reads. -/
structure PaymentRequirements where
  scheme : String
  network : String
  maxAmountRequired : String
  payTo : String
  maxTimeoutSeconds : Option Nat
  asset : String
  deriving DecidableEq, Repr

/-- `ExactStellarPayloadSchema`'s shape: the base64 XDR text, represented by
its decode result (`none`: the decoder throws on this string). -/
structure ExactStellarPayload where
  transaction : Option Transaction
  deriving DecidableEq, Repr

/-- `PaymentPayload` of types/verify.ts for the Stellar scheme. -/
structure PaymentPayload where
  x402Version : Int
  scheme : String
  network : String
  payload : ExactStellarPayload
  deriving DecidableEq, Repr

/-- The supported Stellar network names; `shared/stellar/rpc.ts` switches on
exactly these two. -/
def SupportedStellarNetworks : List String := ["stellar", "stellar-testnet"]

/-- Decimal digit folding over characters; `none` on a non-digit. -/
def digitsToNat (cs : List Char) : Option Nat :=
  cs.foldl
    (fun acc c =>
      match acc with
      | none => none
      | some n => if c.isDigit then some (n * 10 + (c.toNat - 48)) else none)
    (some 0)

/-- `BigInt(s)` on a decimal string: JS accepts an optional sign and digits
(the empty string is `0n`, a bare sign is not); any other string throws,
modelled as `none`. -/
def parseBigInt (s : String) : Option Int :=
  match s.toList with
  | [] => some 0
  | c :: rest =>
    if c = '-' then
      match rest with
      | [] => none
      | _ => (digitsToNat rest).map (fun n => -(n : Int))
    else (digitsToNat s.toList).map (fun n => (n : Int))

/-- `VerifyResponse` of types/verify.ts.  The payer field keeps the native
value of the first transfer argument (a string for a well-formed payload). -/
structure VerifyResponse where
  isValid : Bool
  invalidReason : Option ErrorReason
  payer : Option NativeVal
  deriving DecidableEq, Repr

/-- `invalidResponse` of facilitator/verify. -/
def invalidResponse (reason : ErrorReason) (payer : Option NativeVal) : VerifyResponse :=
  { isValid := false, invalidReason := some reason, payer := payer }

/-- `validResponse` of facilitator/verify. -/
def validResponse (payer : NativeVal) : VerifyResponse :=
  { isValid := true, invalidReason := none, payer := some payer }

/-- The facilitator's signing capability; only its address is read by
`verify`. -/
structure Ed25519Signer where
  address : String
  deriving DecidableEq, Repr

/-- `Array.prototype.includes` with a native value against a string list:
`===` only ever holds between two strings. -/
def nativeIncludes (xs : List String) (v : NativeVal) : Bool :=
  match v with
  | .str s => xs.contains s
  | _ => false

/-- Steps 6–8 of `verify`: transfer-argument validation against the
requirements (recipient, amount), re-simulation, auth audit, the
facilitator-source rejection, and the signature checks.  One contiguous
chunk of the source function, split out so each stage stays tractable. -/
def verifyTransfer (signer : Ed25519Signer) (transaction : Transaction)
    (opSource : Option String) (arg0 arg1 arg2 : ScVal)
    (paymentRequirements : PaymentRequirements)
    (simulateTransaction : Transaction → SimulateResponse) : VerifyResponse :=
  let fromAddress := scValToNative arg0
  let toAddress := scValToNative arg1
  let amount := scValToNative arg2
  if toAddress ≠ NativeVal.str paymentRequirements.payTo then
    invalidResponse .wrong_recipient (some fromAddress)
  else
    match parseBigInt paymentRequirements.maxAmountRequired with
    | none =>
      -- BigInt(maxAmountRequired) threw; caught at the boundary
      invalidResponse .unexpected_verify_error none
    | some requiredAmount =>
      if amount ≠ NativeVal.int requiredAmount then
        invalidResponse .wrong_amount (some fromAddress)
      else
        let simulateResponse := simulateTransaction transaction
        if simulateResponse.isSimulationError then
          invalidResponse .simulation_failed (some fromAddress)
        else
          match gatherAuthEntrySignatureStatus
              ⟨transaction, some simulateResponse, none⟩ with
          | .error _ =>
            -- the auditor threw; caught at the boundary
            invalidResponse .unexpected_verify_error none
          | .ok authStatus =>
            if opSource = some signer.address
                ∨ transaction.source = signer.address then
              invalidResponse .unsafe_tx_or_op_source (some fromAddress)
            else if ¬ nativeIncludes authStatus.alreadySigned fromAddress then
              invalidResponse .missing_payer_signature (some fromAddress)
            else if authStatus.pendingSignature.length > 0 then
              invalidResponse .unexpected_pending_signatures (some fromAddress)
            else
              validResponse fromAddress

/-- Steps 3–5 of `verify`: transaction structure (exactly one
invokeHostFunction operation invoking a contract), contract address,
function name and argument count; then the transfer checks. -/
def verifyOperations (signer : Ed25519Signer) (transaction : Transaction)
    (paymentRequirements : PaymentRequirements)
    (simulateTransaction : Transaction → SimulateResponse) : VerifyResponse :=
  if transaction.operations.length ≠ 1 then invalidResponse .wrong_operation none
  else
    match transaction.operations with
    | [Operation.otherOperation _] => invalidResponse .wrong_operation none
    | [Operation.invokeHostFunction func _ opSource] =>
      match func with
      | .otherHostFunction _ => invalidResponse .wrong_operation none
      | .invokeContract contractAddress functionName args =>
        if contractAddress ≠ paymentRequirements.asset then
          invalidResponse .wrong_asset none
        else if functionName ≠ "transfer" ∨ args.length ≠ 3 then
          invalidResponse .wrong_function_name none
        else if args.length ≠ 3 then
          invalidResponse .wrong_function_args none
        else
          match args with
          | [arg0, arg1, arg2] =>
            verifyTransfer signer transaction opSource arg0 arg1 arg2
              paymentRequirements simulateTransaction
          | _ =>
            -- args.length = 3 is established above; indexing cannot fail
            invalidResponse .unexpected_verify_error none
    | _ =>
      -- operations.length = 1 is established above
      invalidResponse .unexpected_verify_error none

/-- `verify` of the Stellar facilitator (the variant the test suite
exercises, carrying the facilitator signer): protocol checks, XDR decode,
then the structural, requirement, simulation and audit stages.
`simulateTransaction` is the RPC server's simulate capability.  Every
thrown exception is caught at the boundary and becomes
`unexpected_verify_error`. -/
def verify (signer : Ed25519Signer) (payload : PaymentPayload)
    (paymentRequirements : PaymentRequirements)
    (simulateTransaction : Transaction → SimulateResponse) : VerifyResponse :=
  if payload.x402Version ≠ 1 then invalidResponse .invalid_x402_version none
  else if payload.scheme ≠ "exact" then invalidResponse .invalid_scheme none
  else if payload.network ≠ paymentRequirements.network
      ∨ paymentRequirements.network ∉ SupportedStellarNetworks then
    invalidResponse .invalid_network none
  else
    match payload.payload.transaction with
    | none => invalidResponse .malformed none
    | some transaction =>
      verifyOperations signer transaction paymentRequirements simulateTransaction

/-- `SettleResponse` of types/verify.ts. -/
structure SettleResponse where
  success : Bool
  errorReason : Option ErrorReason
  transaction : String
  network : String
  payer : Option NativeVal
  deriving DecidableEq, Repr

/-- `successResponse` of facilitator/settle. -/
def successResponse (txHash : String) (network : String) (payer : Option NativeVal) :
    SettleResponse :=
  { success := true, errorReason := none, transaction := txHash, network := network,
    payer := payer }

/-- `errorResponse` of facilitator/settle. -/
def errorResponse (reason : ErrorReason) (network : String) (payer : Option NativeVal)
    (txHash : String) : SettleResponse :=
  { success := false, errorReason := some reason, transaction := txHash, network := network,
    payer := payer }

def DEFAULT_TIMEOUT_SECONDS : Nat := 60

/-- The facilitator's account state returned by `server.getAccount`. -/
structure Account where
  accountId : String
  sequence : Int
  deriving DecidableEq, Repr

/-- The result of `signer.signTransaction`: the signed XDR (represented by
its parse result) and the optional error. -/
structure SignTransactionResult where
  signedTx : Option Transaction
  error : Option String
  deriving DecidableEq, Repr

/-- `server.sendTransaction`'s response fields read by `settle`. -/
structure SendTransactionResponse where
  status : String
  hash : String
  deriving DecidableEq, Repr

/-- One `server.getTransaction` query in the polling loop: the chain reports
SUCCESS, FAILED, or a non-terminal status (NOT_FOUND / pending), or the
query throws. -/
inductive GetTransactionOutcome where
  | success
  | failed
  | pending
  | thrown
  deriving DecidableEq, Repr

/-- The external capabilities `settle` consumes: the RPC server (simulate,
account fetch, submission, per-attempt transaction-status query) and the
facilitator signer's transaction-signing capability, plus the clock the
transaction builder's `setTimeout` reads.  `getAccount = none` models the
account fetch throwing. -/
structure SettleEnv where
  simulateTransaction : Transaction → SimulateResponse
  getAccount : Option Account
  signTransaction : Transaction → SignTransactionResult
  sendTransaction : Transaction → SendTransactionResponse
  getTransaction : Nat → GetTransactionOutcome
  now : Nat

/-- The poll loop's result together with the number of `getTransaction`
attempts it performed. -/
structure PollResult where
  success : Bool
  attempts : Nat
  deriving DecidableEq, Repr

/-- The loop body of `pollForTransaction`: `remaining` iterations left,
`i` attempts already made.  SUCCESS and FAILED stop the loop; every other
status, and a thrown query, waits and retries. -/
def pollForTransactionAux (getTransaction : Nat → GetTransactionOutcome) :
    Nat → Nat → PollResult
  | 0, i => { success := false, attempts := i }
  | remaining + 1, i =>
    match getTransaction i with
    | .success => { success := true, attempts := i + 1 }
    | .failed => { success := false, attempts := i + 1 }
    | .pending => pollForTransactionAux getTransaction remaining (i + 1)
    | .thrown => pollForTransactionAux getTransaction remaining (i + 1)

/-- `pollForTransaction` of facilitator/settle. -/
def pollForTransaction (getTransaction : Nat → GetTransactionOutcome)
    (maxPollAttempts : Nat) : PollResult :=
  pollForTransactionAux getTransaction maxPollAttempts 0

/-- The `TransactionBuilder` rebuild of `settle` step 4: facilitator as
source (with the next sequence number, as `TransactionBuilder` uses), the
original fee, ledger bounds, memo, minimum-sequence constraints, extra
signers and Soroban data, a fresh time window from `setTimeout`, and the
original invocation (function, auth entries defaulted to `[]`,
operation-level source). -/
def rebuildTransaction (facilitatorAccount : Account) (transaction : Transaction)
    (func : HostFunction) (auth : Option (List AuthorizationEntry))
    (opSource : Option String) (sorobanData : String) (timeoutSeconds : Nat)
    (now : Nat) : Transaction :=
  { source := facilitatorAccount.accountId
    sequence := facilitatorAccount.sequence + 1
    fee := transaction.fee
    timeBounds := some (0, now + timeoutSeconds)
    ledgerBounds := transaction.ledgerBounds
    memo := transaction.memo
    minAccountSequence := transaction.minAccountSequence
    minAccountSequenceAge := transaction.minAccountSequenceAge
    minAccountSequenceLedgerGap := transaction.minAccountSequenceLedgerGap
    extraSigners := transaction.extraSigners
    operations := [Operation.invokeHostFunction func (some (auth.getD [])) opSource]
    sorobanData := some sorobanData }

/-- `settle`'s observable outcome: the response, the transactions submitted
through `sendTransaction` (empty when submission was never attempted), and
the number of polling attempts performed. -/
structure SettleOutcome where
  response : SettleResponse
  submitted : List Transaction
  pollAttempts : Nat
  deriving DecidableEq, Repr

/-- `settle` of the Stellar facilitator: re-runs `verify`, re-parses the
payload, requires the Soroban resource data, rebuilds the transaction under
the facilitator account, signs, submits, and polls for confirmation.
Branches the source reaches only through a thrown exception map to
`unexpected_settle_error` (the outer catch). -/
def settle (signer : Ed25519Signer) (payload : PaymentPayload)
    (paymentRequirements : PaymentRequirements) (env : SettleEnv) : SettleOutcome :=
  let network := payload.network
  let verifyResult := verify signer payload paymentRequirements env.simulateTransaction
  if verifyResult.isValid then
    let payer := verifyResult.payer
    match payload.payload.transaction with
    | none =>
      -- the same string decoded during verify; unreachable after a valid verify
      { response := errorResponse .unexpected_settle_error network payer "",
        submitted := [], pollAttempts := 0 }
    | some transaction =>
      match transaction.sorobanData with
      | none =>
        { response := errorResponse .malformed network payer "",
          submitted := [], pollAttempts := 0 }
      | some sorobanData =>
        match transaction.operations with
        | [Operation.invokeHostFunction func auth opSource] =>
          match env.getAccount with
          | none =>
            -- the account fetch threw
            { response := errorResponse .unexpected_settle_error network payer "",
              submitted := [], pollAttempts := 0 }
          | some facilitatorAccount =>
            let rebuiltTx := rebuildTransaction facilitatorAccount transaction func auth
              opSource sorobanData
              (paymentRequirements.maxTimeoutSeconds.getD DEFAULT_TIMEOUT_SECONDS) env.now
            let signResult := env.signTransaction rebuiltTx
            if signResult.error.isSome then
              { response := errorResponse .transaction_signing_failed network payer "",
                submitted := [], pollAttempts := 0 }
            else
              match signResult.signedTx with
              | none =>
                -- TransactionBuilder.fromXDR threw on the signed XDR
                { response := errorResponse .unexpected_settle_error network payer "",
                  submitted := [], pollAttempts := 0 }
              | some signedTx =>
                let sendResult := env.sendTransaction signedTx
                if sendResult.status ≠ "PENDING" then
                  { response := errorResponse .transaction_submission_failed network payer "",
                    submitted := [signedTx], pollAttempts := 0 }
                else
                  let txHash := sendResult.hash
                  let maxPollAttempts :=
                    paymentRequirements.maxTimeoutSeconds.getD DEFAULT_TIMEOUT_SECONDS
                  let confirmResult := pollForTransaction env.getTransaction maxPollAttempts
                  if confirmResult.success then
                    { response := successResponse txHash network payer,
                      submitted := [signedTx], pollAttempts := confirmResult.attempts }
                  else
                    { response := errorResponse .transaction_failed network payer txHash,
                      submitted := [signedTx], pollAttempts := confirmResult.attempts }
        | _ =>
          -- `operations[0] as Operation.InvokeHostFunction` cannot fail after
          -- a valid verify of the same decoded transaction
          { response := errorResponse .unexpected_settle_error network payer "",
            submitted := [], pollAttempts := 0 }
  else
    { response := errorResponse (verifyResult.invalidReason.getD .unexpected_verify_error)
        network verifyResult.payer "",
      submitted := [], pollAttempts := 0 }

/-! ### Concrete sample inputs, used by closed witnesses and counterexamples -/

def payerAddress : String := "GPAYER"

def payToAddress : String := "GPAYTO"

def assetContract : String := "CASSET"

def facilitatorAddress : String := "GFACIL"

/-- An address-credential auth entry whose signature slot is filled. -/
def signedEntry (address : String) : AuthorizationEntry :=
  ⟨.address address (.scvOther "signature")⟩

/-- An address-credential auth entry whose signature slot is void. -/
def pendingEntry (address : String) : AuthorizationEntry :=
  ⟨.address address .scvVoid⟩

def transferArgs : List ScVal :=
  [.scvAddress payerAddress, .scvAddress payToAddress, .scvI128 1000000]

def transferFunc : HostFunction :=
  .invokeContract assetContract "transfer" transferArgs

/-- A transfer invocation signed by the payer, with a configurable
operation-level source. -/
def transferOp (opSource : Option String) : Operation :=
  .invokeHostFunction transferFunc (some [signedEntry payerAddress]) opSource

def sampleTransaction (source : String) (op : Operation) (tb : Option (Nat × Nat)) :
    Transaction :=
  { source := source, sequence := 7, fee := 100, timeBounds := tb, ledgerBounds := none,
    memo := "", minAccountSequence := none, minAccountSequenceAge := none,
    minAccountSequenceLedgerGap := none, extraSigners := [], operations := [op],
    sorobanData := some "footprint" }

def sampleRequirements : PaymentRequirements :=
  { scheme := "exact", network := "stellar-testnet", maxAmountRequired := "1000000",
    payTo := payToAddress, maxTimeoutSeconds := some 60, asset := assetContract }

def samplePayload (t : Transaction) : PaymentPayload :=
  { x402Version := 1, scheme := "exact", network := "stellar-testnet",
    payload := ⟨some t⟩ }

def sampleSimSuccess : SimulateSuccess :=
  { auth := [], transactionData := "simdata", minResourceFee := 50,
    restorePreamble := none }

def simOk : Transaction → SimulateResponse := fun _ => .success sampleSimSuccess

def simRestore : Transaction → SimulateResponse := fun _ =>
  .success { sampleSimSuccess with restorePreamble := some "preamble" }

def sampleSigner : Ed25519Signer := ⟨facilitatorAddress⟩

/-- A well-behaved settlement environment: account fetch succeeds, signing
returns the transaction unchanged, submission is accepted as PENDING, and
each status query reports the status `poll` gives for that attempt. -/
def sampleEnv (sim : Transaction → SimulateResponse)
    (poll : Nat → GetTransactionOutcome) : SettleEnv :=
  { simulateTransaction := sim
    getAccount := some ⟨facilitatorAddress, 100⟩
    signTransaction := fun t => ⟨some t, none⟩
    sendTransaction := fun _ => ⟨"PENDING", "txhash123"⟩
    getTransaction := poll
    now := 1000 }

/-- The golden scenario: a fully matching, fully signed payload. -/
def goldenTransaction : Transaction :=
  sampleTransaction payerAddress (transferOp none) none

def goldenPayload : PaymentPayload := samplePayload goldenTransaction

/-- The golden transaction, but with the facilitator as transaction-level
source. -/
def facilitatorSourcedTransaction : Transaction :=
  sampleTransaction facilitatorAddress (transferOp none) none

/-- The golden transaction with explicit time bounds. -/
def timeBoundedTransaction : Transaction :=
  sampleTransaction payerAddress (transferOp none) (some (5, 10))

def wrongAssetRequirements : PaymentRequirements :=
  { sampleRequirements with asset := "COTHER" }

/-- An invocation whose contract and function name are both wrong. -/
def wrongFunctionAndAssetOp : Operation :=
  .invokeHostFunction (.invokeContract "COTHER" "burn" transferArgs)
    (some [signedEntry payerAddress]) none

def simErr : Transaction → SimulateResponse := fun _ => .simError "boom"

/-! ### Helper lemmas -/

theorem setDedup_sound (xs : List String) :
    ∀ acc : List String, acc.Nodup →
      (xs.foldl (fun acc x => if x ∈ acc then acc else acc ++ [x]) acc).Nodup := by
  induction xs with
  | nil => intro acc h; exact h
  | cons x xs ih =>
    intro acc h
    simp only [List.foldl_cons]
    by_cases hx : x ∈ acc
    · rw [if_pos hx]; exact ih acc h
    · rw [if_neg hx]
      exact ih (acc ++ [x]) (by simp [List.nodup_append, h, hx])

theorem setDedup_nodup (xs : List String) : (setDedup xs).Nodup :=
  setDedup_sound xs [] List.nodup_nil

theorem auditAssembledOperations_nodup (assembledTx : Transaction) (cs : ContractSigners)
    (h : auditAssembledOperations assembledTx = .ok cs) :
    cs.alreadySigned.Nodup ∧ cs.pendingSignature.Nodup := by
  unfold auditAssembledOperations at h
  repeat' split at h
  all_goals first
    | (simp only [Except.ok.injEq] at h; subst h
       exact ⟨setDedup_nodup _, setDedup_nodup _⟩)
    | simp_all

theorem verifyTransfer_shape (signer : Ed25519Signer) (transaction : Transaction)
    (opSource : Option String) (arg0 arg1 arg2 : ScVal)
    (paymentRequirements : PaymentRequirements)
    (simulateTransaction : Transaction → SimulateResponse) :
    (verifyTransfer signer transaction opSource arg0 arg1 arg2 paymentRequirements
        simulateTransaction).isValid = true
    ∨ (verifyTransfer signer transaction opSource arg0 arg1 arg2 paymentRequirements
        simulateTransaction).invalidReason.isSome := by
  simp only [verifyTransfer]
  repeat' split
  all_goals simp [invalidResponse, validResponse]

theorem verifyOperations_shape (signer : Ed25519Signer) (transaction : Transaction)
    (paymentRequirements : PaymentRequirements)
    (simulateTransaction : Transaction → SimulateResponse) :
    (verifyOperations signer transaction paymentRequirements
        simulateTransaction).isValid = true
    ∨ (verifyOperations signer transaction paymentRequirements
        simulateTransaction).invalidReason.isSome := by
  simp only [verifyOperations]
  repeat' split
  all_goals first
    | apply verifyTransfer_shape
    | simp [invalidResponse, validResponse]

/-- `verify` returns either a valid response or one carrying a reason. -/
theorem verify_shape (signer : Ed25519Signer) (payload : PaymentPayload)
    (paymentRequirements : PaymentRequirements)
    (simulateTransaction : Transaction → SimulateResponse) :
    (verify signer payload paymentRequirements simulateTransaction).isValid = true
    ∨ (verify signer payload paymentRequirements simulateTransaction).invalidReason.isSome := by
  simp only [verify]
  repeat' split
  all_goals first
    | apply verifyOperations_shape
    | simp [invalidResponse, validResponse]

/-- With the protocol gates passed and the payload decoding to
`transaction`, `verify` is the structural stage. -/
theorem verify_eq_verifyOperations (signer : Ed25519Signer) (payload : PaymentPayload)
    (paymentRequirements : PaymentRequirements)
    (simulateTransaction : Transaction → SimulateResponse) (transaction : Transaction)
    (hver : payload.x402Version = 1) (hsch : payload.scheme = "exact")
    (hnet : payload.network = paymentRequirements.network)
    (hsup : paymentRequirements.network ∈ SupportedStellarNetworks)
    (hdec : payload.payload.transaction = some transaction) :
    verify signer payload paymentRequirements simulateTransaction
      = verifyOperations signer transaction paymentRequirements simulateTransaction := by
  simp [verify, hver, hsch, hnet, hsup, hdec]

/-- With a single well-shaped transfer invocation on the required asset,
the structural stage is the transfer stage. -/
theorem verifyOperations_eq_verifyTransfer (signer : Ed25519Signer)
    (transaction : Transaction) (paymentRequirements : PaymentRequirements)
    (simulateTransaction : Transaction → SimulateResponse)
    (auth : Option (List AuthorizationEntry)) (opSource : Option String)
    (arg0 arg1 arg2 : ScVal)
    (hops : transaction.operations
      = [Operation.invokeHostFunction
          (.invokeContract paymentRequirements.asset "transfer" [arg0, arg1, arg2])
          auth opSource]) :
    verifyOperations signer transaction paymentRequirements simulateTransaction
      = verifyTransfer signer transaction opSource arg0 arg1 arg2
          paymentRequirements simulateTransaction := by
  simp [verifyOperations, hops]

/-- The auditor cannot throw on a single-invocation transaction with a
successful simulation. -/
theorem gather_not_error_of_single_invoke (transaction : Transaction)
    (s : SimulateSuccess) (func : HostFunction)
    (auth : Option (List AuthorizationEntry)) (opSource : Option String)
    (hops : transaction.operations = [Operation.invokeHostFunction func auth opSource])
    (e : String) :
    gatherAuthEntrySignatureStatus
      ⟨transaction, some (SimulateResponse.success s), none⟩ ≠ .error e := by
  simp [gatherAuthEntrySignatureStatus, assembleForAudit, assembleTransaction, hops,
    auditAssembledOperations]

/-! ### C9: the auditor is deterministic and its outputs are duplicate-free -/

/-- C9: `gatherAuthEntrySignatureStatus` is deterministic and idempotent —
two runs on the same input yield the same `ContractSigners` — and any
`ContractSigners` it returns has duplicate-free `alreadySigned` and
`pendingSignature` lists, so duplicate address-credential entries for the
same address collapse to a single membership. -/
theorem gatherAuthEntrySignatureStatus_deterministic_nodup
    (input : GatherAuthEntrySignatureStatusInput) :
    gatherAuthEntrySignatureStatus input = gatherAuthEntrySignatureStatus input
    ∧ ∀ cs, gatherAuthEntrySignatureStatus input = .ok cs →
        cs.alreadySigned.Nodup ∧ cs.pendingSignature.Nodup := by
  refine ⟨rfl, fun cs h => ?_⟩
  unfold gatherAuthEntrySignatureStatus at h
  split at h
  · simp at h
  · exact auditAssembledOperations_nodup _ cs h

/-- An input with two signed entries for the payer and two pending entries
for another address collapses to one membership each. -/
def duplicateEntriesInput : GatherAuthEntrySignatureStatusInput :=
  ⟨sampleTransaction payerAddress
      (.invokeHostFunction transferFunc
        (some [signedEntry payerAddress, signedEntry payerAddress,
               pendingEntry "GOTHER", pendingEntry "GOTHER"]) none)
      none,
   none, none⟩

theorem gatherAuthEntrySignatureStatus_deterministic_nodup_witness :
    (ContractSigners.mk [payerAddress] ["GOTHER"]).alreadySigned.Nodup
    ∧ (ContractSigners.mk [payerAddress] ["GOTHER"]).pendingSignature.Nodup :=
  (gatherAuthEntrySignatureStatus_deterministic_nodup duplicateEntriesInput).2
    ⟨[payerAddress], ["GOTHER"]⟩ (by rfl)

/-! ### C10: the `wrong_function_args` branch is unreachable -/

/-- C10: `verify` never returns `wrong_function_args`: a transfer invocation
with an argument count different from 3 is already rejected by the combined
function-name/argument-count check as `wrong_function_name`, so the second
argument-count check can never fire. -/
theorem verify_never_wrong_function_args (signer : Ed25519Signer)
    (payload : PaymentPayload) (paymentRequirements : PaymentRequirements)
    (simulateTransaction : Transaction → SimulateResponse) :
    (verify signer payload paymentRequirements simulateTransaction).invalidReason
      ≠ some ErrorReason.wrong_function_args := by
  have htransfer : ∀ (t : Transaction) (o : Option String) (a0 a1 a2 : ScVal),
      (verifyTransfer signer t o a0 a1 a2 paymentRequirements
        simulateTransaction).invalidReason ≠ some ErrorReason.wrong_function_args := by
    intro t o a0 a1 a2
    simp only [verifyTransfer]
    repeat' split
    all_goals simp [invalidResponse, validResponse]
  have hops : ∀ t : Transaction,
      (verifyOperations signer t paymentRequirements
        simulateTransaction).invalidReason ≠ some ErrorReason.wrong_function_args := by
    intro t
    simp only [verifyOperations]
    repeat' split
    all_goals first
      | apply htransfer
      | simp_all [invalidResponse, validResponse]
  simp only [verify]
  repeat' split
  all_goals first
    | apply hops
    | simp [invalidResponse, validResponse]

theorem verify_never_wrong_function_args_witness :
    (verify sampleSigner
        (samplePayload (sampleTransaction payerAddress
          (.invokeHostFunction (.invokeContract assetContract "transfer"
            [.scvAddress payerAddress]) none none) none))
        sampleRequirements simOk).invalidReason
      ≠ some ErrorReason.wrong_function_args :=
  verify_never_wrong_function_args sampleSigner
    (samplePayload (sampleTransaction payerAddress
      (.invokeHostFunction (.invokeContract assetContract "transfer"
        [.scvAddress payerAddress]) none none) none))
    sampleRequirements simOk

/-! ### C3: settlement short-circuits on an invalid internal verify -/

/-- C3: when the re-verify at the start of `settle` is invalid, `settle`
never calls `sendTransaction` and returns a failure carrying the verify's
own reason. -/
theorem settle_short_circuits_on_invalid_verify (signer : Ed25519Signer)
    (payload : PaymentPayload) (paymentRequirements : PaymentRequirements)
    (env : SettleEnv)
    (h : (verify signer payload paymentRequirements env.simulateTransaction).isValid
      = false) :
    (settle signer payload paymentRequirements env).submitted = []
    ∧ (settle signer payload paymentRequirements env).response.success = false
    ∧ (settle signer payload paymentRequirements env).response.errorReason
        = (verify signer payload paymentRequirements env.simulateTransaction).invalidReason := by
  rcases verify_shape signer payload paymentRequirements env.simulateTransaction with hv | hv
  · rw [h] at hv; exact absurd hv (by simp)
  · obtain ⟨reason, hreason⟩ := Option.isSome_iff_exists.mp hv
    simp [settle, h, hreason, errorResponse]

theorem settle_short_circuits_on_invalid_verify_witness :
    (settle sampleSigner { goldenPayload with x402Version := 2 } sampleRequirements
        (sampleEnv simOk (fun _ => .success))).submitted = []
    ∧ (settle sampleSigner { goldenPayload with x402Version := 2 } sampleRequirements
        (sampleEnv simOk (fun _ => .success))).response.success = false
    ∧ (settle sampleSigner { goldenPayload with x402Version := 2 } sampleRequirements
        (sampleEnv simOk (fun _ => .success))).response.errorReason
        = (verify sampleSigner { goldenPayload with x402Version := 2 } sampleRequirements
            (sampleEnv simOk (fun _ => .success)).simulateTransaction).invalidReason :=
  settle_short_circuits_on_invalid_verify sampleSigner
    { goldenPayload with x402Version := 2 } sampleRequirements
    (sampleEnv simOk (fun _ => .success)) (by rfl)

/-! ### C7: polling budget and termination -/

theorem pollForTransactionAux_exhausts (getTransaction : Nat → GetTransactionOutcome) :
    ∀ remaining i,
      (∀ j, j < remaining →
        getTransaction (i + j) = .pending ∨ getTransaction (i + j) = .thrown) →
      pollForTransactionAux getTransaction remaining i
        = { success := false, attempts := i + remaining } := by
  intro remaining
  induction remaining with
  | zero => intro i _; simp [pollForTransactionAux]
  | succ n ih =>
    intro i h
    have h0 := h 0 (Nat.succ_pos n)
    have hrest := ih (i + 1) (fun j hj => by
      have := h (j + 1) (Nat.succ_lt_succ hj)
      simpa [Nat.add_assoc, Nat.add_comm 1 j] using this)
    unfold pollForTransactionAux
    rcases h0 with h0 | h0 <;> simp only [Nat.add_zero] at h0 <;> rw [h0]
    all_goals
      show pollForTransactionAux getTransaction n (i + 1) = _
      rw [hrest]
      simp only [PollResult.mk.injEq]
      exact ⟨trivial, by omega⟩

theorem pollForTransactionAux_failfast (getTransaction : Nat → GetTransactionOutcome) :
    ∀ k remaining i, k < remaining → getTransaction (i + k) = .failed →
      (∀ j, j < k →
        getTransaction (i + j) = .pending ∨ getTransaction (i + j) = .thrown) →
      pollForTransactionAux getTransaction remaining i
        = { success := false, attempts := i + k + 1 } := by
  intro k
  induction k with
  | zero =>
    intro remaining i hlt hfail _
    match remaining, hlt with
    | n + 1, _ =>
      simp only [Nat.add_zero] at hfail
      unfold pollForTransactionAux
      rw [hfail]
  | succ k ih =>
    intro remaining i hlt hfail hpre
    match remaining, hlt with
    | n + 1, hlt =>
      have h0 := hpre 0 (Nat.succ_pos k)
      have hfail1 : getTransaction ((i + 1) + k) = .failed := by
        rw [show (i + 1) + k = i + (k + 1) by omega]; exact hfail
      have hpre1 : ∀ j, j < k →
          getTransaction ((i + 1) + j) = .pending ∨ getTransaction ((i + 1) + j) = .thrown :=
        fun j hj => by
          have := hpre (j + 1) (Nat.succ_lt_succ hj)
          simpa [Nat.add_assoc, Nat.add_comm 1 j] using this
      have hrest := ih n (i + 1) (Nat.lt_of_succ_lt_succ hlt) hfail1 hpre1
      unfold pollForTransactionAux
      rcases h0 with h0 | h0 <;> simp only [Nat.add_zero] at h0 <;> rw [h0]
      all_goals
        show pollForTransactionAux getTransaction n (i + 1) = _
        rw [hrest]
        simp only [PollResult.mk.injEq]
        exact ⟨trivial, by omega⟩

/-- C7: when the chain never reports a terminal status (every query is
pending / not-found or throws), the polling loop performs exactly
`maxAttempts` attempts and reports failure; a chain-reported FAILED status
at attempt `k` stops the loop right there, after `k + 1` attempts; and a
settlement whose submission succeeded but whose polls never resolve
performs exactly `maxTimeoutSeconds` attempts (60 when the requirement
leaves it out) and returns `transaction_failed`. -/
theorem pollForTransaction_attempt_budget
    (getTransaction : Nat → GetTransactionOutcome) (maxAttempts k : Nat) :
    ((∀ i, i < maxAttempts →
        getTransaction i = .pending ∨ getTransaction i = .thrown) →
      pollForTransaction getTransaction maxAttempts
        = { success := false, attempts := maxAttempts })
    ∧ (k < maxAttempts → getTransaction k = .failed →
      (∀ i, i < k → getTransaction i = .pending ∨ getTransaction i = .thrown) →
      pollForTransaction getTransaction maxAttempts
        = { success := false, attempts := k + 1 })
    ∧ (∀ (signer : Ed25519Signer) (payload : PaymentPayload)
        (paymentRequirements : PaymentRequirements) (env : SettleEnv)
        (transaction : Transaction) (sorobanData : String) (func : HostFunction)
        (auth : Option (List AuthorizationEntry)) (opSource : Option String)
        (facilitatorAccount : Account),
      (verify signer payload paymentRequirements env.simulateTransaction).isValid = true →
      payload.payload.transaction = some transaction →
      transaction.sorobanData = some sorobanData →
      transaction.operations = [Operation.invokeHostFunction func auth opSource] →
      env.getAccount = some facilitatorAccount →
      (∀ t, env.signTransaction t = { signedTx := some t, error := none }) →
      (∀ t, (env.sendTransaction t).status = "PENDING") →
      (∀ i, env.getTransaction i = .pending ∨ env.getTransaction i = .thrown) →
      (settle signer payload paymentRequirements env).response.errorReason
          = some ErrorReason.transaction_failed
        ∧ (settle signer payload paymentRequirements env).pollAttempts
          = paymentRequirements.maxTimeoutSeconds.getD DEFAULT_TIMEOUT_SECONDS) := by
  have hbudget : ∀ m : Nat,
      (∀ i, i < m → getTransaction i = .pending ∨ getTransaction i = .thrown) →
      pollForTransaction getTransaction m = { success := false, attempts := m } := by
    intro m hm
    have := pollForTransactionAux_exhausts getTransaction m 0
      (fun j hj => by simpa using hm j hj)
    simpa [pollForTransaction] using this
  refine ⟨hbudget maxAttempts, fun hk hfail hpre => ?_, ?_⟩
  · have := pollForTransactionAux_failfast getTransaction k maxAttempts 0 hk
      (by simpa using hfail) (fun j hj => by simpa using hpre j hj)
    simpa [pollForTransaction] using this
  · intro signer payload paymentRequirements env transaction sorobanData func auth opSource
      facilitatorAccount hvalid hdec hsor hops hacct hsign hsend hpoll
    have hpollres : pollForTransaction env.getTransaction
        (paymentRequirements.maxTimeoutSeconds.getD DEFAULT_TIMEOUT_SECONDS)
        = { success := false,
            attempts := paymentRequirements.maxTimeoutSeconds.getD DEFAULT_TIMEOUT_SECONDS } := by
      have := pollForTransactionAux_exhausts env.getTransaction
        (paymentRequirements.maxTimeoutSeconds.getD DEFAULT_TIMEOUT_SECONDS) 0
        (fun j _ => by simpa using hpoll j)
      simpa [pollForTransaction] using this
    simp [settle, hvalid, hdec, hsor, hops, hacct, hsign, hsend, hpollres, errorResponse]

theorem pollForTransaction_attempt_budget_witness :
    pollForTransaction (fun _ => GetTransactionOutcome.pending) 60
      = { success := false, attempts := 60 }
    ∧ pollForTransaction (fun i => if i < 2 then GetTransactionOutcome.thrown
        else GetTransactionOutcome.failed) 60
      = { success := false, attempts := 3 }
    ∧ (settle sampleSigner goldenPayload sampleRequirements
        (sampleEnv simOk (fun _ => GetTransactionOutcome.pending))).response.errorReason
        = some ErrorReason.transaction_failed
    ∧ (settle sampleSigner goldenPayload sampleRequirements
        (sampleEnv simOk (fun _ => GetTransactionOutcome.pending))).pollAttempts
        = sampleRequirements.maxTimeoutSeconds.getD DEFAULT_TIMEOUT_SECONDS := by
  refine ⟨?_, ?_, ?_⟩
  · exact (pollForTransaction_attempt_budget (fun _ => .pending) 60 0).1
      (fun i _ => Or.inl rfl)
  · exact (pollForTransaction_attempt_budget
        (fun i => if i < 2 then GetTransactionOutcome.thrown else GetTransactionOutcome.failed)
        60 2).2.1 (by omega) (by simp) (fun i hi => Or.inr (by simp [hi]))
  · exact (pollForTransaction_attempt_budget (fun _ => .pending) 1 0).2.2
      sampleSigner goldenPayload sampleRequirements
      (sampleEnv simOk (fun _ => GetTransactionOutcome.pending))
      goldenTransaction "footprint" transferFunc (some [signedEntry payerAddress]) none
      ⟨facilitatorAddress, 100⟩
      (by decide) (by rfl) (by rfl) (by rfl) (by rfl)
      (fun t => rfl) (fun t => rfl) (fun i => Or.inl rfl)

/-! ### C1: facilitator-source rejection -/

/-- C1 as stated is false: the facilitator-source audit runs after the
earlier pipeline checks, so a payload whose transaction-level source is
the facilitator's own address but whose asset mismatches the requirements
is rejected as `wrong_asset`, not `unsafe_tx_or_op_source`. -/
theorem verify_unsafe_source_unconditional_counterexample :
    facilitatorSourcedTransaction.source = sampleSigner.address
    ∧ (verify sampleSigner (samplePayload facilitatorSourcedTransaction)
        wrongAssetRequirements simOk).invalidReason = some ErrorReason.wrong_asset
    ∧ (verify sampleSigner (samplePayload facilitatorSourcedTransaction)
        wrongAssetRequirements simOk).invalidReason
        ≠ some ErrorReason.unsafe_tx_or_op_source := by decide

/-- C1 (amended): for every payload that passes the checks preceding the
audit stage — protocol version/scheme/network, decode, a single transfer
invocation on the required asset with matching recipient and amount, and a
non-error simulation — an operation-level or transaction-level source equal
to the facilitator signer's address makes `verify` return
`unsafe_tx_or_op_source`, regardless of the state of any authorization
signature; and the `verify` that `settle` re-runs internally performs this
same rejection, short-circuiting settlement with that reason and no
submission. -/
theorem verify_unsafe_source_after_gates (signer : Ed25519Signer)
    (payload : PaymentPayload) (paymentRequirements : PaymentRequirements)
    (env : SettleEnv) (transaction : Transaction)
    (auth : Option (List AuthorizationEntry)) (opSource : Option String)
    (arg0 arg1 arg2 : ScVal) (requiredAmount : Int)
    (hver : payload.x402Version = 1) (hsch : payload.scheme = "exact")
    (hnet : payload.network = paymentRequirements.network)
    (hsup : paymentRequirements.network ∈ SupportedStellarNetworks)
    (hdec : payload.payload.transaction = some transaction)
    (hops : transaction.operations
      = [Operation.invokeHostFunction
          (.invokeContract paymentRequirements.asset "transfer" [arg0, arg1, arg2])
          auth opSource])
    (hto : scValToNative arg1 = NativeVal.str paymentRequirements.payTo)
    (hamt : parseBigInt paymentRequirements.maxAmountRequired = some requiredAmount)
    (hval : scValToNative arg2 = NativeVal.int requiredAmount)
    (hsim : (env.simulateTransaction transaction).isSimulationError = false)
    (hsrc : opSource = some signer.address ∨ transaction.source = signer.address) :
    verify signer payload paymentRequirements env.simulateTransaction
      = invalidResponse .unsafe_tx_or_op_source (some (scValToNative arg0))
    ∧ (settle signer payload paymentRequirements env).response
        = errorResponse .unsafe_tx_or_op_source payload.network
            (some (scValToNative arg0)) ""
    ∧ (settle signer payload paymentRequirements env).submitted = [] := by
  obtain ⟨s, hs⟩ : ∃ s, env.simulateTransaction transaction = .success s := by
    cases hq : env.simulateTransaction transaction
    · exact ⟨_, rfl⟩
    · rw [hq] at hsim; simp [SimulateResponse.isSimulationError] at hsim
  have hv : verify signer payload paymentRequirements env.simulateTransaction
      = invalidResponse .unsafe_tx_or_op_source (some (scValToNative arg0)) := by
    rw [verify_eq_verifyOperations signer payload paymentRequirements
        env.simulateTransaction transaction hver hsch hnet hsup hdec,
      verifyOperations_eq_verifyTransfer signer transaction paymentRequirements
        env.simulateTransaction auth opSource arg0 arg1 arg2 hops]
    rcases hg : gatherAuthEntrySignatureStatus
        ⟨transaction, some (env.simulateTransaction transaction), none⟩ with e | cs
    · rw [hs] at hg
      exact absurd hg (gather_not_error_of_single_invoke transaction s _ auth opSource hops e)
    · simp [verifyTransfer, hto, hamt, hval, hsim, hg, hsrc]
  refine ⟨hv, ?_, ?_⟩
  · simp [settle, hv, invalidResponse, errorResponse]
  · simp [settle, hv, invalidResponse]

theorem verify_unsafe_source_after_gates_witness :
    verify sampleSigner (samplePayload facilitatorSourcedTransaction) sampleRequirements
        (sampleEnv simOk (fun _ => GetTransactionOutcome.success)).simulateTransaction
      = invalidResponse .unsafe_tx_or_op_source (some (NativeVal.str payerAddress))
    ∧ (settle sampleSigner (samplePayload facilitatorSourcedTransaction) sampleRequirements
        (sampleEnv simOk (fun _ => GetTransactionOutcome.success))).response
        = errorResponse .unsafe_tx_or_op_source
            (samplePayload facilitatorSourcedTransaction).network
            (some (NativeVal.str payerAddress)) ""
    ∧ (settle sampleSigner (samplePayload facilitatorSourcedTransaction) sampleRequirements
        (sampleEnv simOk (fun _ => GetTransactionOutcome.success))).submitted = [] :=
  verify_unsafe_source_after_gates sampleSigner
    (samplePayload facilitatorSourcedTransaction) sampleRequirements
    (sampleEnv simOk (fun _ => GetTransactionOutcome.success))
    facilitatorSourcedTransaction (some [signedEntry payerAddress]) none
    (.scvAddress payerAddress) (.scvAddress payToAddress) (.scvI128 1000000) 1000000
    (by decide) (by decide) (by decide) (by decide) (by decide) (by decide)
    (by decide) (by decide) (by decide) (by decide) (Or.inr (by decide))

/-! ### C2: a matching, fully signed payload verifies as valid -/

/-- C2 as stated is false: a payload whose decoded transfer matches the
requirements exactly, simulates successfully, and carries the payer as the
sole already-complete signer with nothing pending is still rejected when
its transaction-level source is the facilitator's address — the claim is
missing the facilitator-source side condition. -/
theorem verify_valid_unconditional_counterexample :
    gatherAuthEntrySignatureStatus
      ⟨facilitatorSourcedTransaction, some (simOk facilitatorSourcedTransaction), none⟩
      = .ok ⟨[payerAddress], []⟩
    ∧ (verify sampleSigner (samplePayload facilitatorSourcedTransaction)
        sampleRequirements simOk).isValid = false
    ∧ (verify sampleSigner (samplePayload facilitatorSourcedTransaction)
        sampleRequirements simOk).invalidReason
        = some ErrorReason.unsafe_tx_or_op_source := by decide

/-- C2 (amended): for every payload that passes the protocol checks and
decodes to a single transfer invocation on `requirements.asset` whose
recipient and amount match the requirements, whose simulation is not an
error, whose operation- and transaction-level sources differ from the
facilitator signer's address, and whose audited authorization entries list
the decoded `from` among `alreadySigned` with `pendingSignature` empty,
`verify` returns `{isValid := true, payer := from}`. -/
theorem verify_valid_on_matching_complete_payload (signer : Ed25519Signer)
    (payload : PaymentPayload) (paymentRequirements : PaymentRequirements)
    (simulateTransaction : Transaction → SimulateResponse) (transaction : Transaction)
    (auth : Option (List AuthorizationEntry)) (opSource : Option String)
    (arg0 arg1 arg2 : ScVal) (requiredAmount : Int) (cs : ContractSigners)
    (hver : payload.x402Version = 1) (hsch : payload.scheme = "exact")
    (hnet : payload.network = paymentRequirements.network)
    (hsup : paymentRequirements.network ∈ SupportedStellarNetworks)
    (hdec : payload.payload.transaction = some transaction)
    (hops : transaction.operations
      = [Operation.invokeHostFunction
          (.invokeContract paymentRequirements.asset "transfer" [arg0, arg1, arg2])
          auth opSource])
    (hto : scValToNative arg1 = NativeVal.str paymentRequirements.payTo)
    (hamt : parseBigInt paymentRequirements.maxAmountRequired = some requiredAmount)
    (hval : scValToNative arg2 = NativeVal.int requiredAmount)
    (hsim : (simulateTransaction transaction).isSimulationError = false)
    (hopSource : opSource ≠ some signer.address)
    (htxSource : transaction.source ≠ signer.address)
    (hgather : gatherAuthEntrySignatureStatus
      ⟨transaction, some (simulateTransaction transaction), none⟩ = .ok cs)
    (hsigned : nativeIncludes cs.alreadySigned (scValToNative arg0) = true)
    (hpending : cs.pendingSignature = []) :
    verify signer payload paymentRequirements simulateTransaction
      = validResponse (scValToNative arg0) := by
  rw [verify_eq_verifyOperations signer payload paymentRequirements
      simulateTransaction transaction hver hsch hnet hsup hdec,
    verifyOperations_eq_verifyTransfer signer transaction paymentRequirements
      simulateTransaction auth opSource arg0 arg1 arg2 hops]
  simp [verifyTransfer, hto, hamt, hval, hsim, hgather, hsigned, hpending,
    hopSource, htxSource]

theorem verify_valid_on_matching_complete_payload_witness :
    verify sampleSigner goldenPayload sampleRequirements simOk
      = validResponse (NativeVal.str payerAddress) :=
  verify_valid_on_matching_complete_payload sampleSigner goldenPayload
    sampleRequirements simOk goldenTransaction (some [signedEntry payerAddress]) none
    (.scvAddress payerAddress) (.scvAddress payToAddress) (.scvI128 1000000) 1000000
    ⟨[payerAddress], []⟩
    (by decide) (by decide) (by decide) (by decide) (by decide) (by decide)
    (by decide) (by decide) (by decide) (by decide) (by decide) (by decide)
    (by decide) (by decide) (by decide)

/-! ### C4: which failure reasons carry the decoded payer -/

theorem verifyTransfer_payer_spectrum (signer : Ed25519Signer)
    (transaction : Transaction) (opSource : Option String) (a0 a1 a2 : ScVal)
    (paymentRequirements : PaymentRequirements)
    (simulateTransaction : Transaction → SimulateResponse) :
    (((verifyTransfer signer transaction opSource a0 a1 a2 paymentRequirements
          simulateTransaction).invalidReason = some ErrorReason.wrong_recipient
      ∨ (verifyTransfer signer transaction opSource a0 a1 a2 paymentRequirements
          simulateTransaction).invalidReason = some ErrorReason.wrong_amount
      ∨ (verifyTransfer signer transaction opSource a0 a1 a2 paymentRequirements
          simulateTransaction).invalidReason = some ErrorReason.simulation_failed
      ∨ (verifyTransfer signer transaction opSource a0 a1 a2 paymentRequirements
          simulateTransaction).invalidReason = some ErrorReason.unsafe_tx_or_op_source
      ∨ (verifyTransfer signer transaction opSource a0 a1 a2 paymentRequirements
          simulateTransaction).invalidReason = some ErrorReason.missing_payer_signature
      ∨ (verifyTransfer signer transaction opSource a0 a1 a2 paymentRequirements
          simulateTransaction).invalidReason
            = some ErrorReason.unexpected_pending_signatures) →
      (verifyTransfer signer transaction opSource a0 a1 a2 paymentRequirements
          simulateTransaction).payer = some (scValToNative a0))
    ∧ (((verifyTransfer signer transaction opSource a0 a1 a2 paymentRequirements
          simulateTransaction).invalidReason = some ErrorReason.wrong_asset
      ∨ (verifyTransfer signer transaction opSource a0 a1 a2 paymentRequirements
          simulateTransaction).invalidReason = some ErrorReason.wrong_function_name
      ∨ (verifyTransfer signer transaction opSource a0 a1 a2 paymentRequirements
          simulateTransaction).invalidReason = some ErrorReason.wrong_function_args) →
      (verifyTransfer signer transaction opSource a0 a1 a2 paymentRequirements
          simulateTransaction).payer = none) := by
  simp only [verifyTransfer]
  repeat' split
  all_goals constructor <;> intro h <;> simp_all [invalidResponse, validResponse]

theorem verifyOperations_payer_spectrum (signer : Ed25519Signer)
    (transaction : Transaction) (paymentRequirements : PaymentRequirements)
    (simulateTransaction : Transaction → SimulateResponse)
    (c f : String) (auth : Option (List AuthorizationEntry)) (opSource : Option String)
    (a0 a1 a2 : ScVal)
    (hops : transaction.operations
      = [Operation.invokeHostFunction (.invokeContract c f [a0, a1, a2]) auth opSource]) :
    (((verifyOperations signer transaction paymentRequirements
          simulateTransaction).invalidReason = some ErrorReason.wrong_recipient
      ∨ (verifyOperations signer transaction paymentRequirements
          simulateTransaction).invalidReason = some ErrorReason.wrong_amount
      ∨ (verifyOperations signer transaction paymentRequirements
          simulateTransaction).invalidReason = some ErrorReason.simulation_failed
      ∨ (verifyOperations signer transaction paymentRequirements
          simulateTransaction).invalidReason = some ErrorReason.unsafe_tx_or_op_source
      ∨ (verifyOperations signer transaction paymentRequirements
          simulateTransaction).invalidReason = some ErrorReason.missing_payer_signature
      ∨ (verifyOperations signer transaction paymentRequirements
          simulateTransaction).invalidReason
            = some ErrorReason.unexpected_pending_signatures) →
      (verifyOperations signer transaction paymentRequirements
          simulateTransaction).payer = some (scValToNative a0))
    ∧ (((verifyOperations signer transaction paymentRequirements
          simulateTransaction).invalidReason = some ErrorReason.wrong_asset
      ∨ (verifyOperations signer transaction paymentRequirements
          simulateTransaction).invalidReason = some ErrorReason.wrong_function_name
      ∨ (verifyOperations signer transaction paymentRequirements
          simulateTransaction).invalidReason = some ErrorReason.wrong_function_args) →
      (verifyOperations signer transaction paymentRequirements
          simulateTransaction).payer = none) := by
  by_cases hasset : c = paymentRequirements.asset
  · by_cases hfn : f = "transfer"
    · subst hasset; subst hfn
      rw [verifyOperations_eq_verifyTransfer signer transaction paymentRequirements
        simulateTransaction auth opSource a0 a1 a2 hops]
      exact verifyTransfer_payer_spectrum signer transaction opSource a0 a1 a2
        paymentRequirements simulateTransaction
    · have hr : verifyOperations signer transaction paymentRequirements
          simulateTransaction = invalidResponse .wrong_function_name none := by
        simp [verifyOperations, hops, hasset, hfn]
      rw [hr]
      constructor <;> intro h <;> simp_all [invalidResponse]
  · have hr : verifyOperations signer transaction paymentRequirements
        simulateTransaction = invalidResponse .wrong_asset none := by
      simp [verifyOperations, hops, hasset]
    rw [hr]
    constructor <;> intro h <;> simp_all [invalidResponse]

/-- C4 (amended): for a decodable payload whose single invocation carries
exactly three arguments, the failures from the recipient check onwards
(`wrong_recipient`, `wrong_amount`, `simulation_failed`,
`unsafe_tx_or_op_source`, `missing_payer_signature`,
`unexpected_pending_signatures`) report the decoded first transfer argument
as `payer`, while the contract and function checks (`wrong_asset`,
`wrong_function_name`, `wrong_function_args`) report no payer, because the
arguments are only decoded after those checks pass. -/
theorem verify_payer_reporting (signer : Ed25519Signer) (payload : PaymentPayload)
    (paymentRequirements : PaymentRequirements)
    (simulateTransaction : Transaction → SimulateResponse) (transaction : Transaction)
    (c f : String) (auth : Option (List AuthorizationEntry)) (opSource : Option String)
    (a0 a1 a2 : ScVal)
    (hdec : payload.payload.transaction = some transaction)
    (hops : transaction.operations
      = [Operation.invokeHostFunction (.invokeContract c f [a0, a1, a2]) auth opSource]) :
    (((verify signer payload paymentRequirements
          simulateTransaction).invalidReason = some ErrorReason.wrong_recipient
      ∨ (verify signer payload paymentRequirements
          simulateTransaction).invalidReason = some ErrorReason.wrong_amount
      ∨ (verify signer payload paymentRequirements
          simulateTransaction).invalidReason = some ErrorReason.simulation_failed
      ∨ (verify signer payload paymentRequirements
          simulateTransaction).invalidReason = some ErrorReason.unsafe_tx_or_op_source
      ∨ (verify signer payload paymentRequirements
          simulateTransaction).invalidReason = some ErrorReason.missing_payer_signature
      ∨ (verify signer payload paymentRequirements
          simulateTransaction).invalidReason
            = some ErrorReason.unexpected_pending_signatures) →
      (verify signer payload paymentRequirements
          simulateTransaction).payer = some (scValToNative a0))
    ∧ (((verify signer payload paymentRequirements
          simulateTransaction).invalidReason = some ErrorReason.wrong_asset
      ∨ (verify signer payload paymentRequirements
          simulateTransaction).invalidReason = some ErrorReason.wrong_function_name
      ∨ (verify signer payload paymentRequirements
          simulateTransaction).invalidReason = some ErrorReason.wrong_function_args) →
      (verify signer payload paymentRequirements
          simulateTransaction).payer = none) := by
  simp only [verify]
  split
  · constructor <;> intro h <;> simp [invalidResponse] at h
  split
  · constructor <;> intro h <;> simp [invalidResponse] at h
  split
  · constructor <;> intro h <;> simp [invalidResponse] at h
  split
  · simp_all
  · rename_i t heq
    rw [hdec] at heq
    injection heq with heq
    subst heq
    exact verifyOperations_payer_spectrum signer transaction paymentRequirements
      simulateTransaction c f auth opSource a0 a1 a2 hops

/-- C4 as stated is false: a `wrong_asset` failure on a decodable
single-transfer payload reports no payer at all, not the decoded `from`. -/
theorem verify_payer_reporting_counterexample :
    (verify sampleSigner goldenPayload wrongAssetRequirements simOk).invalidReason
      = some ErrorReason.wrong_asset
    ∧ (verify sampleSigner goldenPayload wrongAssetRequirements simOk).payer = none
    ∧ (verify sampleSigner goldenPayload wrongAssetRequirements simOk).payer
      ≠ some (NativeVal.str payerAddress) := by decide

theorem verify_payer_reporting_witness :
    (((verify sampleSigner goldenPayload sampleRequirements
          simOk).invalidReason = some ErrorReason.wrong_recipient
      ∨ (verify sampleSigner goldenPayload sampleRequirements
          simOk).invalidReason = some ErrorReason.wrong_amount
      ∨ (verify sampleSigner goldenPayload sampleRequirements
          simOk).invalidReason = some ErrorReason.simulation_failed
      ∨ (verify sampleSigner goldenPayload sampleRequirements
          simOk).invalidReason = some ErrorReason.unsafe_tx_or_op_source
      ∨ (verify sampleSigner goldenPayload sampleRequirements
          simOk).invalidReason = some ErrorReason.missing_payer_signature
      ∨ (verify sampleSigner goldenPayload sampleRequirements
          simOk).invalidReason = some ErrorReason.unexpected_pending_signatures) →
      (verify sampleSigner goldenPayload sampleRequirements
          simOk).payer = some (scValToNative (ScVal.scvAddress payerAddress)))
    ∧ (((verify sampleSigner goldenPayload sampleRequirements
          simOk).invalidReason = some ErrorReason.wrong_asset
      ∨ (verify sampleSigner goldenPayload sampleRequirements
          simOk).invalidReason = some ErrorReason.wrong_function_name
      ∨ (verify sampleSigner goldenPayload sampleRequirements
          simOk).invalidReason = some ErrorReason.wrong_function_args) →
      (verify sampleSigner goldenPayload sampleRequirements
          simOk).payer = none) :=
  verify_payer_reporting sampleSigner goldenPayload sampleRequirements simOk
    goldenTransaction assetContract "transfer" (some [signedEntry payerAddress]) none
    (.scvAddress payerAddress) (.scvAddress payToAddress) (.scvI128 1000000)
    (by decide) (by decide)

/-! ### C5: the simulation gate -/

/-- C5 as stated is false: a "restore required" simulation outcome (a
success response carrying a restore preamble) is not rejected by `verify`'s
simulation gate — the gate only tests `Api.isSimulationError` — so a fully
matching signed payload whose simulation requires a restore verifies as
valid instead of failing with `simulation_failed`.  (`handleSimulationResult`,
which does treat RESTORE as an error, is only called on the client side.) -/
theorem verify_simulation_gate_counterexample :
    (simRestore goldenTransaction).isSimulationRestore = true
    ∧ (verify sampleSigner goldenPayload sampleRequirements simRestore).isValid = true
    ∧ (verify sampleSigner goldenPayload sampleRequirements simRestore).invalidReason
        ≠ some ErrorReason.simulation_failed := by decide

/-- C5 (amended): for every payload passing the structural and semantic
requirement checks, the simulation gate maps an explicit simulation error
to `simulation_failed` carrying the decoded `from` as payer; a non-error
response — including a "restore required" response — passes the gate, and
`verify` then never reports `simulation_failed`. -/
theorem verify_simulation_gate (signer : Ed25519Signer) (payload : PaymentPayload)
    (paymentRequirements : PaymentRequirements)
    (simulateTransaction : Transaction → SimulateResponse) (transaction : Transaction)
    (auth : Option (List AuthorizationEntry)) (opSource : Option String)
    (arg0 arg1 arg2 : ScVal) (requiredAmount : Int) (msg : String)
    (hver : payload.x402Version = 1) (hsch : payload.scheme = "exact")
    (hnet : payload.network = paymentRequirements.network)
    (hsup : paymentRequirements.network ∈ SupportedStellarNetworks)
    (hdec : payload.payload.transaction = some transaction)
    (hops : transaction.operations
      = [Operation.invokeHostFunction
          (.invokeContract paymentRequirements.asset "transfer" [arg0, arg1, arg2])
          auth opSource])
    (hto : scValToNative arg1 = NativeVal.str paymentRequirements.payTo)
    (hamt : parseBigInt paymentRequirements.maxAmountRequired = some requiredAmount)
    (hval : scValToNative arg2 = NativeVal.int requiredAmount) :
    (simulateTransaction transaction = .simError msg →
      verify signer payload paymentRequirements simulateTransaction
        = invalidResponse .simulation_failed (some (scValToNative arg0)))
    ∧ ((simulateTransaction transaction).isSimulationError = false →
      (verify signer payload paymentRequirements simulateTransaction).invalidReason
        ≠ some ErrorReason.simulation_failed) := by
  rw [verify_eq_verifyOperations signer payload paymentRequirements
      simulateTransaction transaction hver hsch hnet hsup hdec,
    verifyOperations_eq_verifyTransfer signer transaction paymentRequirements
      simulateTransaction auth opSource arg0 arg1 arg2 hops]
  constructor
  · intro hserr
    simp [verifyTransfer, hto, hamt, hval, hserr, SimulateResponse.isSimulationError]
  · intro hok
    obtain ⟨s, hs⟩ : ∃ s, simulateTransaction transaction = .success s := by
      cases hq : simulateTransaction transaction
      · exact ⟨_, rfl⟩
      · rw [hq] at hok; simp [SimulateResponse.isSimulationError] at hok
    rcases hg : gatherAuthEntrySignatureStatus
        ⟨transaction, some (simulateTransaction transaction), none⟩ with e | cs
    · rw [hs] at hg
      exact absurd hg (gather_not_error_of_single_invoke transaction s _ auth opSource hops e)
    · simp only [verifyTransfer, hto, hamt, hval, hok, hg]
      repeat' split
      all_goals simp_all [invalidResponse, validResponse]

theorem verify_simulation_gate_witness :
    (simErr goldenTransaction = .simError "boom" →
      verify sampleSigner goldenPayload sampleRequirements simErr
        = invalidResponse .simulation_failed
            (some (scValToNative (ScVal.scvAddress payerAddress))))
    ∧ ((simErr goldenTransaction).isSimulationError = false →
      (verify sampleSigner goldenPayload sampleRequirements simErr).invalidReason
        ≠ some ErrorReason.simulation_failed) :=
  verify_simulation_gate sampleSigner goldenPayload sampleRequirements simErr
    goldenTransaction (some [signedEntry payerAddress]) none
    (.scvAddress payerAddress) (.scvAddress payToAddress) (.scvI128 1000000) 1000000
    "boom"
    (by decide) (by decide) (by decide) (by decide) (by decide) (by decide)
    (by decide) (by decide) (by decide)

/-! ### C6: the order of the asset and function-name checks -/

/-- C6 as stated is false: for a transaction whose invocation has both a
wrong function name and a contract different from `requirements.asset`,
`verify` returns `wrong_asset`, because the contract-identity check runs
before the function-name check. -/
theorem verify_check_order_counterexample :
    (verify sampleSigner
        (samplePayload (sampleTransaction payerAddress wrongFunctionAndAssetOp none))
        sampleRequirements simOk).invalidReason = some ErrorReason.wrong_asset
    ∧ (verify sampleSigner
        (samplePayload (sampleTransaction payerAddress wrongFunctionAndAssetOp none))
        sampleRequirements simOk).invalidReason
        ≠ some ErrorReason.wrong_function_name := by decide

/-- C6 (amended): the contract-identity check (`wrong_asset`) is decided
before the function-name/argument-count check (`wrong_function_name`),
short-circuiting on the first failure: a mismatched contract yields
`wrong_asset` whatever the function name, and only a matching contract
with a bad function name or argument count yields `wrong_function_name`. -/
theorem verify_check_order (signer : Ed25519Signer) (payload : PaymentPayload)
    (paymentRequirements : PaymentRequirements)
    (simulateTransaction : Transaction → SimulateResponse) (transaction : Transaction)
    (c f : String) (args : List ScVal) (auth : Option (List AuthorizationEntry))
    (opSource : Option String)
    (hver : payload.x402Version = 1) (hsch : payload.scheme = "exact")
    (hnet : payload.network = paymentRequirements.network)
    (hsup : paymentRequirements.network ∈ SupportedStellarNetworks)
    (hdec : payload.payload.transaction = some transaction)
    (hops : transaction.operations
      = [Operation.invokeHostFunction (.invokeContract c f args) auth opSource]) :
    (c ≠ paymentRequirements.asset →
      verify signer payload paymentRequirements simulateTransaction
        = invalidResponse .wrong_asset none)
    ∧ (c = paymentRequirements.asset → (f ≠ "transfer" ∨ args.length ≠ 3) →
      verify signer payload paymentRequirements simulateTransaction
        = invalidResponse .wrong_function_name none) := by
  rw [verify_eq_verifyOperations signer payload paymentRequirements
      simulateTransaction transaction hver hsch hnet hsup hdec]
  constructor
  · intro hne
    simp [verifyOperations, hops, hne]
  · intro heq hbad
    simp [verifyOperations, hops, heq, hbad]

theorem verify_check_order_witness :
    ("COTHER" ≠ sampleRequirements.asset →
      verify sampleSigner
          (samplePayload (sampleTransaction payerAddress wrongFunctionAndAssetOp none))
          sampleRequirements simOk
        = invalidResponse .wrong_asset none)
    ∧ ("COTHER" = sampleRequirements.asset →
      ("burn" ≠ "transfer" ∨ transferArgs.length ≠ 3) →
      verify sampleSigner
          (samplePayload (sampleTransaction payerAddress wrongFunctionAndAssetOp none))
          sampleRequirements simOk
        = invalidResponse .wrong_function_name none) :=
  verify_check_order sampleSigner
    (samplePayload (sampleTransaction payerAddress wrongFunctionAndAssetOp none))
    sampleRequirements simOk
    (sampleTransaction payerAddress wrongFunctionAndAssetOp none)
    "COTHER" "burn" transferArgs (some [signedEntry payerAddress]) none
    (by decide) (by decide) (by decide) (by decide) (by decide) (by decide)

/-! ### C8: what the settlement rebuild preserves -/

/-- C8 as stated is false: the rebuild does not preserve the original
transaction's time bounds — `settle` sets a fresh time window via
`setTimeout(maxTimeoutSeconds ?? 60)` instead of cloning them.  Here a
payload with time bounds (5, 10) passes the internal verify, and the
transaction that settlement submits carries time bounds (0, now + 60). -/
theorem settle_rebuild_counterexample :
    (verify sampleSigner (samplePayload timeBoundedTransaction) sampleRequirements
        (sampleEnv simOk (fun _ => GetTransactionOutcome.success)).simulateTransaction).isValid
      = true
    ∧ (settle sampleSigner (samplePayload timeBoundedTransaction) sampleRequirements
        (sampleEnv simOk (fun _ => GetTransactionOutcome.success))).submitted
        = [rebuildTransaction ⟨facilitatorAddress, 100⟩ timeBoundedTransaction transferFunc
            (some [signedEntry payerAddress]) none "footprint" 60 1000]
    ∧ (rebuildTransaction ⟨facilitatorAddress, 100⟩ timeBoundedTransaction transferFunc
        (some [signedEntry payerAddress]) none "footprint" 60 1000).timeBounds
        = some (0, 1060)
    ∧ timeBoundedTransaction.timeBounds = some (5, 10)
    ∧ (rebuildTransaction ⟨facilitatorAddress, 100⟩ timeBoundedTransaction transferFunc
        (some [signedEntry payerAddress]) none "footprint" 60 1000).timeBounds
        ≠ timeBoundedTransaction.timeBounds := by decide

/-- C8 (amended): for every payload that passes settle's internal verify,
the rebuilt transaction (the one settlement signs and submits) equals the
original in its fee, ledger bounds, minimum-sequence constraints, memo,
extra-signer requirements and Soroban resource footprint, and carries the
original invocation unchanged (host function, authorization entries —
defaulted to `[]` when absent — and operation-level source), while its
transaction-level source account is the facilitator's address with the
facilitator account's next sequence number; its time bounds, however, are
set to a fresh window of `maxTimeoutSeconds` (default 60) seconds from the
build time rather than copied from the original. -/
theorem settle_rebuild_preservation (signer : Ed25519Signer)
    (payload : PaymentPayload) (paymentRequirements : PaymentRequirements)
    (env : SettleEnv) (transaction : Transaction) (sorobanData : String)
    (func : HostFunction) (auth : Option (List AuthorizationEntry))
    (opSource : Option String) (facilitatorAccount : Account)
    (hvalid : (verify signer payload paymentRequirements env.simulateTransaction).isValid
      = true)
    (hdec : payload.payload.transaction = some transaction)
    (hsor : transaction.sorobanData = some sorobanData)
    (hops : transaction.operations = [Operation.invokeHostFunction func auth opSource])
    (hacct : env.getAccount = some facilitatorAccount)
    (hsign : ∀ t, env.signTransaction t = { signedTx := some t, error := none }) :
    (settle signer payload paymentRequirements env).submitted
      = [rebuildTransaction facilitatorAccount transaction func auth opSource sorobanData
          (paymentRequirements.maxTimeoutSeconds.getD DEFAULT_TIMEOUT_SECONDS) env.now]
    ∧ (rebuildTransaction facilitatorAccount transaction func auth opSource sorobanData
        (paymentRequirements.maxTimeoutSeconds.getD DEFAULT_TIMEOUT_SECONDS) env.now)
      = { source := facilitatorAccount.accountId
          sequence := facilitatorAccount.sequence + 1
          fee := transaction.fee
          timeBounds := some (0, env.now
            + (paymentRequirements.maxTimeoutSeconds.getD DEFAULT_TIMEOUT_SECONDS))
          ledgerBounds := transaction.ledgerBounds
          memo := transaction.memo
          minAccountSequence := transaction.minAccountSequence
          minAccountSequenceAge := transaction.minAccountSequenceAge
          minAccountSequenceLedgerGap := transaction.minAccountSequenceLedgerGap
          extraSigners := transaction.extraSigners
          operations := [Operation.invokeHostFunction func (some (auth.getD [])) opSource]
          sorobanData := some sorobanData } := by
  refine ⟨?_, rfl⟩
  simp only [settle, hvalid, hdec, hsor, hops, hacct, hsign]
  repeat' split
  all_goals simp_all

theorem settle_rebuild_preservation_witness :
    (settle sampleSigner (samplePayload timeBoundedTransaction) sampleRequirements
        (sampleEnv simOk (fun _ => GetTransactionOutcome.success))).submitted
      = [rebuildTransaction ⟨facilitatorAddress, 100⟩ timeBoundedTransaction transferFunc
          (some [signedEntry payerAddress]) none "footprint"
          (sampleRequirements.maxTimeoutSeconds.getD DEFAULT_TIMEOUT_SECONDS)
          (sampleEnv simOk (fun _ => GetTransactionOutcome.success)).now]
    ∧ (rebuildTransaction ⟨facilitatorAddress, 100⟩ timeBoundedTransaction transferFunc
        (some [signedEntry payerAddress]) none "footprint"
        (sampleRequirements.maxTimeoutSeconds.getD DEFAULT_TIMEOUT_SECONDS)
        (sampleEnv simOk (fun _ => GetTransactionOutcome.success)).now)
      = { source := (Account.mk facilitatorAddress 100).accountId
          sequence := (Account.mk facilitatorAddress 100).sequence + 1
          fee := timeBoundedTransaction.fee
          timeBounds := some (0,
            (sampleEnv simOk (fun _ => GetTransactionOutcome.success)).now
            + (sampleRequirements.maxTimeoutSeconds.getD DEFAULT_TIMEOUT_SECONDS))
          ledgerBounds := timeBoundedTransaction.ledgerBounds
          memo := timeBoundedTransaction.memo
          minAccountSequence := timeBoundedTransaction.minAccountSequence
          minAccountSequenceAge := timeBoundedTransaction.minAccountSequenceAge
          minAccountSequenceLedgerGap := timeBoundedTransaction.minAccountSequenceLedgerGap
          extraSigners := timeBoundedTransaction.extraSigners
          operations := [Operation.invokeHostFunction transferFunc
            (some ((some [signedEntry payerAddress]).getD [])) none]
          sorobanData := some "footprint" } :=
  settle_rebuild_preservation sampleSigner (samplePayload timeBoundedTransaction)
    sampleRequirements (sampleEnv simOk (fun _ => GetTransactionOutcome.success))
    timeBoundedTransaction "footprint" transferFunc (some [signedEntry payerAddress])
    none ⟨facilitatorAddress, 100⟩
    (by decide) (by decide) (by decide) (by decide) (by decide) (fun t => rfl)

end X402
